import Mathlib

/-!
Shallow embedding of `src/lambda-scripts/ec2-scheduler.py`, an AWS Lambda
handler that starts or stops EC2 instances selected by explicit instance ids
or tag filters.

Modelling conventions:
- A Python value that may be `None` is an `Option`.
- A raised Python exception is the `Except.error` case, carrying `str(e)`.
- The EC2 client (`boto3.client`) is a record of three functions supplied as
  a parameter; each may succeed or raise.  The list of provider calls issued
  during an invocation is returned alongside the result so that claims about
  which network calls are made can be stated.
- The event payload distinguishes an absent key from a present key whose
  value is null: `Event.action : Option (Option String)` is `none` when the
  key is absent and `some none` when the key maps to null.
- Environment variables are `Option String` (`none` = unset).
- `json.dumps` of the three body shapes the handler builds is modelled by a
  structured `Body` type rather than a serialized string.
-/

namespace EC2Scheduler

/-- Model of Python `str.split(sep)` on the character list: splitting an
empty list yields one empty segment, matching `"".split(",") == [""]`. -/
def splitOnChar (sep : Char) : List Char → List (List Char)
  | [] => [[]]
  | c :: cs =>
    match splitOnChar sep cs with
    | [] => [[c]]
    | r :: rs => if c = sep then [] :: r :: rs else (c :: r) :: rs

/-- Model of Python `str.split(',')`. -/
def pySplit (sep : Char) (s : String) : List String :=
  (splitOnChar sep s.data).map String.mk

/-- Model of Python `str.strip()`: drop whitespace from both ends. -/
def pyStrip (s : String) : String :=
  String.mk (((s.data.dropWhile Char.isWhitespace).reverse.dropWhile
    Char.isWhitespace).reverse)

/-- Model of Python `str.lower()` (ASCII case folding suffices here). -/
def pyLower (s : String) : String :=
  String.mk (s.data.map Char.toLower)

/-- Model of the f-string rendering of a value that is either a string or
Python `None`. -/
def pyStr : Option String → String
  | none => "None"
  | some s => s

/-- Model of evaluating `action.lower()` when `action` may be `None`:
calling `.lower()` on `None` raises `AttributeError`. -/
def lowerAction : Option String → Except String String
  | none => .error "\x27NoneType\x27 object has no attribute \x27lower\x27"
  | some s => .ok (pyLower s)

/-- One entry of the `Filters` argument of `describe_instances`. -/
structure Filter where
  Name : String
  Values : List String
deriving DecidableEq, Repr

/-- One member of the `Instances` list of a reservation. -/
structure Ec2Instance where
  InstanceId : String
deriving DecidableEq, Repr

/-- One member of the `Reservations` list of a describe response. -/
structure Reservation where
  Instances : List Ec2Instance
deriving DecidableEq, Repr

/-- The part of the `describe_instances` response the handler reads. -/
structure DescribeResponse where
  Reservations : List Reservation
deriving DecidableEq, Repr

/-- A provider (EC2 API) call issued during one invocation, with the
arguments it was given. `describeInstances` records whether the
`InstanceIds=` argument was passed and which `Filters=` list was used. -/
inductive ProviderCall where
  | describeInstances (instanceIds : Option (List String)) (filters : List Filter)
  | startInstances (instanceIds : List String)
  | stopInstances (instanceIds : List String)
deriving DecidableEq, Repr

/-- The EC2 client: each operation either returns a response or raises
(the `Except.error` case carries `str(e)`).  `ρ` is the opaque type of the
raw start/stop responses, which the handler passes through unmodified. -/
structure EC2Client (ρ : Type) where
  describeInstances : Option (List String) → List Filter → Except String DescribeResponse
  startInstances : List String → Except String ρ
  stopInstances : List String → Except String ρ

/-- The incoming Lambda event payload.  Outer `Option` = key presence;
for `action` the inner `Option` distinguishes a null value from a string. -/
structure Event where
  action : Option (Option String)
  instance_ids : Option (List String)
  tag_filters : Option (List (String × String))

/-- The environment variables the handler consults (`none` = unset). -/
structure Env where
  DEFAULT_ACTION : Option String
  INSTANCE_IDS : Option String
  TAG_KEY : Option String
  TAG_VALUE : Option String

/-- The three body shapes the handler serializes with `json.dumps`. -/
inductive Body (ρ : Type) where
  | noInstancesBody (message : String) (affected_instances : List String)
  | successBody (message : String) (action : String)
      (affected_instances : List String) (results : ρ)
  | errorBody (error : String)
deriving DecidableEq, Repr

/-- The response envelope `{statusCode, body}`. -/
structure Response (ρ : Type) where
  statusCode : Nat
  body : Body ρ
deriving DecidableEq, Repr

/-- Line 70: the action is the payload action value when the key is
present (a present null is kept), else the DEFAULT_ACTION environment
value, else the hardcoded fallback stop. -/
def resolveAction (event : Event) (env : Env) : Option String :=
  match event.action with
  | some v => v
  | none => some (env.DEFAULT_ACTION.getD "stop")

/-- Lines 71-83: resolution of `instance_ids` and `tag_filters` from the
payload with fallback to the environment when both are falsy. -/
def resolveTargets (event : Event) (env : Env) :
    List String × List (String × String) :=
  let instance_ids := event.instance_ids.getD []
  let tag_filters := event.tag_filters.getD []
  if instance_ids = [] ∧ tag_filters = [] then
    let env_instance_ids := env.INSTANCE_IDS.getD ""
    let instance_ids :=
      if env_instance_ids ≠ "" then (pySplit ',' env_instance_ids).map pyStrip
      else instance_ids
    let tag_key := env.TAG_KEY.getD "Schedule"
    let tag_filters :=
      match env.TAG_VALUE with
      | some v => if v ≠ "" then [(tag_key, v)] else tag_filters
      | none => tag_filters
    (instance_ids, tag_filters)
  else
    (instance_ids, tag_filters)

/-- Lines 140-148: one exact-match filter entry per tag key/value pair.
The `if tag_filters:` guard in the source is a no-op for an empty dict. -/
def buildFilters (tag_filters : List (String × String)) : List Filter :=
  tag_filters.map (fun kv => { Name := "tag:" ++ kv.1, Values := [kv.2] })

/-- Lines 160-165: flatten the nested response to the list of instance ids,
reservations in order and instances within each reservation in order. -/
def extractInstanceIds (resp : DescribeResponse) : List String :=
  resp.Reservations.flatMap (fun r => r.Instances.map (fun i => i.InstanceId))

/-- Lines 128-169, `get_target_instances`: build the filter list, call
`describe_instances` (with `InstanceIds=` exactly when the id list is
truthy, i.e. non-empty), and flatten the response.  The inner
`try/except ... raise` re-raises unchanged, so an error propagates.
Also returns the list of provider calls issued. -/
def get_target_instances {ρ : Type} (client : EC2Client ρ)
    (instance_ids : List String) (tag_filters : List (String × String)) :
    Except String (List String) × List ProviderCall :=
  let filters := buildFilters tag_filters
  if instance_ids = [] then
    match client.describeInstances none filters with
    | .ok resp => (.ok (extractInstanceIds resp), [.describeInstances none filters])
    | .error e => (.error e, [.describeInstances none filters])
  else
    match client.describeInstances (some instance_ids) filters with
    | .ok resp =>
        (.ok (extractInstanceIds resp), [.describeInstances (some instance_ids) filters])
    | .error e => (.error e, [.describeInstances (some instance_ids) filters])

/-- Lines 172-189 and 192-209, `start_instances` / `stop_instances`: thin
wrappers whose `try/except ... raise` re-raises unchanged, modelled as the
client call plus its trace entry. -/
def start_instances {ρ : Type} (client : EC2Client ρ) (instance_ids : List String) :
    Except String ρ × List ProviderCall :=
  (client.startInstances instance_ids, [.startInstances instance_ids])

/-- See `start_instances`. -/
def stop_instances {ρ : Type} (client : EC2Client ρ) (instance_ids : List String) :
    Except String ρ × List ProviderCall :=
  (client.stopInstances instance_ids, [.stopInstances instance_ids])

/-- Lines 68-116: the body of the `try` block of `lambda_handler`.
`Except.error` is a raised exception reaching the top-level boundary. -/
def lambda_handler_inner {ρ : Type} (client : EC2Client ρ) (event : Event)
    (env : Env) : Except String (Response ρ) × List ProviderCall :=
  let action := resolveAction event env
  let instance_ids := (resolveTargets event env).1
  let tag_filters := (resolveTargets event env).2
  match get_target_instances client instance_ids tag_filters with
  | (.error e, calls) => (.error e, calls)
  | (.ok target_instances, calls) =>
    if target_instances = [] then
      (.ok { statusCode := 200,
             body := .noInstancesBody "No instances found matching the criteria" [] },
       calls)
    else
      match lowerAction action with
      | .error e => (.error e, calls)
      | .ok low =>
        let dispatch : Except String ρ × List ProviderCall :=
          if low = "start" then
            let (r, c) := start_instances client target_instances
            (r, calls ++ c)
          else if low = "stop" then
            let (r, c) := stop_instances client target_instances
            (r, calls ++ c)
          else
            (.error ("Invalid action: " ++ pyStr action ++
              ". Must be \x27start\x27 or \x27stop\x27"), calls)
        match dispatch with
        | (.error e, calls) => (.error e, calls)
        | (.ok result, calls) =>
          (.ok { statusCode := 200,
                 body := .successBody
                   ("Successfully " ++ pyStr action ++ "ed " ++
                     toString target_instances.length ++ " instances")
                   (pyStr action) target_instances result },
           calls)

/-- Lines 54-125, `lambda_handler`: the single top-level `try/except`
boundary converts any raised exception into a 500 envelope whose error
string is `f"Lambda execution failed: {str(e)}"`. -/
def lambda_handler {ρ : Type} (client : EC2Client ρ) (event : Event)
    (env : Env) : Response ρ × List ProviderCall :=
  match lambda_handler_inner client event env with
  | (.ok r, calls) => (r, calls)
  | (.error e, calls) =>
      ({ statusCode := 500,
         body := .errorBody ("Lambda execution failed: " ++ e) }, calls)

/-- Whether a provider call is a start/stop (control-plane dispatch) call. -/
def isDispatchCall : ProviderCall → Bool
  | .startInstances _ => true
  | .stopInstances _ => true
  | .describeInstances _ _ => false

/-! Concrete fixtures used by the witness theorems. -/

/-- An environment with no variables set. -/
def envNone : Env := ⟨none, none, none, none⟩

/-- A describe response with one reservation holding instances
`i-aaa` and `i-bbb`, in that order. -/
def respAB : DescribeResponse := ⟨[⟨[⟨"i-aaa"⟩, ⟨"i-bbb"⟩]⟩]⟩

/-- A describe response with two reservations and a duplicated id. -/
def respDup : DescribeResponse := ⟨[⟨[⟨"i-1"⟩, ⟨"i-2"⟩]⟩, ⟨[⟨"i-1"⟩]⟩]⟩

/-- A describe response with no reservations. -/
def respEmpty : DescribeResponse := ⟨[]⟩

/-- A client whose inventory always returns `respAB`; start/stop succeed
with raw results 1 and 2. -/
def clientAB : EC2Client Nat :=
  ⟨fun _ _ => .ok respAB, fun _ => .ok 1, fun _ => .ok 2⟩

/-- A client whose inventory matches nothing. -/
def clientEmpty : EC2Client Nat :=
  ⟨fun _ _ => .ok respEmpty, fun _ => .ok 1, fun _ => .ok 2⟩

/-- A client whose inventory query raises. -/
def clientQueryRaises : EC2Client Nat :=
  ⟨fun _ _ => .error "query boom", fun _ => .ok 1, fun _ => .ok 2⟩

/-- A client whose inventory returns `respDup`. -/
def clientDup : EC2Client Nat :=
  ⟨fun _ _ => .ok respDup, fun _ => .ok 1, fun _ => .ok 2⟩

/-- Payload `{"action": "stop", "tag_filters": {"Environment": "development"}}`. -/
def eventStopDev : Event :=
  ⟨some (some "stop"), none, some [("Environment", "development")]⟩

/-- An empty payload `{}`. -/
def eventEmpty : Event := ⟨none, none, none⟩

/-- Payload `{"action": null, "tag_filters": {"Environment": "development"}}`. -/
def eventNullAction : Event :=
  ⟨some none, none, some [("Environment", "development")]⟩

/-- Payload `{"action": "pause", "tag_filters": {"Environment": "development"}}`. -/
def eventPause : Event :=
  ⟨some (some "pause"), none, some [("Environment", "development")]⟩

/-- An environment with `INSTANCE_IDS="i-1,, i-2 ,"` and `TAG_VALUE="daily"`. -/
def envIdsAndTag : Env := ⟨none, some "i-1,, i-2 ,", none, some "daily"⟩

/-! Helper lemmas. -/

/-- The inventory query issues exactly one provider call: a describe call
that passes `InstanceIds=` exactly when the id list is non-empty. -/
theorem get_target_instances_calls {ρ : Type} (client : EC2Client ρ)
    (ids : List String) (tf : List (String × String)) :
    (get_target_instances client ids tf).2 =
      [ProviderCall.describeInstances (if ids = [] then none else some ids)
        (buildFilters tf)] := by
  unfold get_target_instances
  split
  · rename_i h
    cases hd : client.describeInstances none (buildFilters tf) <;> simp [hd, h]
  · rename_i h
    cases hd : client.describeInstances (some ids) (buildFilters tf) <;> simp [hd, h]

/-- The inventory query result is the flattened describe response, or the
raised error, propagated unchanged. -/
theorem get_target_instances_fst {ρ : Type} (client : EC2Client ρ)
    (ids : List String) (tf : List (String × String)) :
    (get_target_instances client ids tf).1 =
      (client.describeInstances (if ids = [] then none else some ids)
        (buildFilters tf)).map extractInstanceIds := by
  unfold get_target_instances
  split
  · rename_i h
    cases hd : client.describeInstances none (buildFilters tf) <;>
      simp [hd, h, Except.map]
  · rename_i h
    cases hd : client.describeInstances (some ids) (buildFilters tf) <;>
      simp [hd, h, Except.map]

/-- Splitting yields one more segment than there are separators, so no
segment (empty or not) is ever dropped. -/
theorem splitOnChar_length (sep : Char) (l : List Char) :
    (splitOnChar sep l).length = l.count sep + 1 := by
  induction l with
  | nil => simp [splitOnChar]
  | cons c cs ih =>
    unfold splitOnChar
    cases h : splitOnChar sep cs with
    | nil => rw [h] at ih; simp at ih
    | cons r rs =>
      rw [h] at ih
      by_cases hc : c = sep
      · simp [hc, List.count_cons] at ih ⊢; omega
      · simp [hc, List.count_cons, Ne.symm hc] at ih ⊢; omega

/-- The length of the flattened id list is the sum of the per-reservation
instance counts, so flattening drops and deduplicates nothing. -/
theorem extract_length_eq_sum (rs : List Reservation) :
    (rs.flatMap (fun r => r.Instances.map (fun i => i.InstanceId))).length =
      (rs.map (fun r => r.Instances.length)).sum := by
  induction rs with
  | nil => rfl
  | cons r rs ih => simp [ih]

/-- Whatever else an invocation does, its first provider call is the
describe call built from the resolved ids and filters. -/
theorem lambda_handler_calls_head {ρ : Type} (client : EC2Client ρ)
    (event : Event) (env : Env) :
    (lambda_handler client event env).2.head? =
      some (ProviderCall.describeInstances
        (if (resolveTargets event env).1 = [] then none
         else some (resolveTargets event env).1)
        (buildFilters (resolveTargets event env).2)) := by
  have hc := get_target_instances_calls client (resolveTargets event env).1
    (resolveTargets event env).2
  unfold lambda_handler lambda_handler_inner
  cases hg : get_target_instances client (resolveTargets event env).1
      (resolveTargets event env).2 with
  | mk res calls =>
    rw [hg] at hc
    simp only at hc
    subst hc
    cases res with
    | error e => simp [hg]
    | ok l =>
      simp only [hg]
      by_cases hl : l = []
      · simp [hl]
      · cases hla : lowerAction (resolveAction event env) with
        | error e => simp [hl, hla]
        | ok low =>
          by_cases hstart : low = "start"
          · cases hsi : client.startInstances l <;>
              simp [hl, hla, hstart, start_instances, hsi]
          · by_cases hstop : low = "stop"
            · cases hsi : client.stopInstances l <;>
                simp [hl, hla, hstart, hstop, stop_instances, hsi]
            · simp [hl, hla, hstart, hstop]

/-! Claim theorems. -/

/-- C8: the resolved action equals the payload action field when the key is
present; otherwise it is the `DEFAULT_ACTION` environment value when that is
set; otherwise it is the hardcoded fallback `"stop"`. -/
theorem C8_action_resolution (event : Event) (env : Env) :
    (∀ v, event.action = some v → resolveAction event env = v) ∧
    (event.action = none →
      (∀ s, env.DEFAULT_ACTION = some s → resolveAction event env = some s) ∧
      (env.DEFAULT_ACTION = none → resolveAction event env = some "stop")) := by
  unfold resolveAction
  refine ⟨fun v hv => by rw [hv], fun h => ⟨fun s hs => ?_, fun hs => ?_⟩⟩
  · rw [h, hs]; rfl
  · rw [h, hs]; rfl

/-- Witness for C8 at concrete inputs: a present `"stop"` action is kept,
and an absent action with no `DEFAULT_ACTION` resolves to `"stop"`. -/
theorem C8_action_resolution_witness :
    resolveAction eventStopDev envNone = some "stop" ∧
    resolveAction eventEmpty envNone = some "stop" :=
  ⟨(C8_action_resolution eventStopDev envNone).1 (some "stop") rfl,
   ((C8_action_resolution eventEmpty envNone).2 rfl).2 rfl⟩

/-- C4: when the payload supplies neither `instance_ids` nor `tag_filters`
(absent or empty), the resolver falls back to the environment: the id list
is the comma-split, stripped `INSTANCE_IDS` string (empty or unset string
gives an empty list, not an error), and the filter mapping is the
single-entry `TAG_KEY` (default `"Schedule"`) to `TAG_VALUE` mapping exactly
when `TAG_VALUE` is configured non-empty, else the empty mapping.  When the
payload supplies either field non-empty, the result is exactly the payload
values, independent of every environment, so the fallbacks are not
consulted. -/
theorem C4_env_fallback (event : Event) (env : Env) :
    (event.instance_ids.getD [] = [] → event.tag_filters.getD [] = [] →
      ((env.INSTANCE_IDS = none ∨ env.INSTANCE_IDS = some "") →
        (resolveTargets event env).1 = []) ∧
      (∀ s, env.INSTANCE_IDS = some s → s ≠ "" →
        (resolveTargets event env).1 = (pySplit ',' s).map pyStrip) ∧
      (∀ v, env.TAG_VALUE = some v → v ≠ "" →
        (resolveTargets event env).2 = [(env.TAG_KEY.getD "Schedule", v)]) ∧
      ((env.TAG_VALUE = none ∨ env.TAG_VALUE = some "") →
        (resolveTargets event env).2 = [])) ∧
    (¬ (event.instance_ids.getD [] = [] ∧ event.tag_filters.getD [] = []) →
      resolveTargets event env =
        (event.instance_ids.getD [], event.tag_filters.getD [])) := by
  constructor
  · intro h1 h2
    refine ⟨?_, fun s hs hne => ?_, fun v hv hne => ?_, ?_⟩
    · rintro (h | h) <;> simp [resolveTargets, h1, h2, h]
    · simp [resolveTargets, h1, h2, hs, hne]
    · simp [resolveTargets, h1, h2, hv, hne]
    · rintro (h | h) <;> simp [resolveTargets, h1, h2, h]
  · intro h
    simp [resolveTargets, h]

/-- Witness for C4 at concrete inputs: an empty payload against
`INSTANCE_IDS="i-1,, i-2 ,"`, `TAG_VALUE="daily"`, unset `TAG_KEY`. -/
theorem C4_env_fallback_witness :
    (resolveTargets eventEmpty envIdsAndTag).1 = ["i-1", "", "i-2", ""] ∧
    (resolveTargets eventEmpty envIdsAndTag).2 = [("Schedule", "daily")] := by
  have h := (C4_env_fallback eventEmpty envIdsAndTag).1 rfl rfl
  constructor
  · rw [h.2.1 "i-1,, i-2 ," rfl (by decide)]; decide
  · rw [h.2.2.1 "daily" rfl (by decide)]; rfl

/-- C5: the inventory query builds exactly one exact-match filter entry per
tag key/value pair (same length, i-th entry matches the i-th pair), and the
single describe call passes both `InstanceIds=` and `Filters=`
simultaneously when the id list is non-empty, and only `Filters=` when it is
empty. -/
theorem C5_query_construction {ρ : Type} (client : EC2Client ρ)
    (ids : List String) (tf : List (String × String)) :
    ((buildFilters tf).length = tf.length ∧
      ∀ i : Nat, (buildFilters tf)[i]? =
        (tf[i]?).map (fun kv => { Name := "tag:" ++ kv.1, Values := [kv.2] })) ∧
    (ids ≠ [] → (get_target_instances client ids tf).2 =
      [ProviderCall.describeInstances (some ids) (buildFilters tf)]) ∧
    (ids = [] → (get_target_instances client ids tf).2 =
      [ProviderCall.describeInstances none (buildFilters tf)]) := by
  refine ⟨⟨by simp [buildFilters], fun i => by simp [buildFilters]⟩, fun h => ?_, fun h => ?_⟩
  · rw [get_target_instances_calls, if_neg h]
  · rw [get_target_instances_calls, if_pos h]

/-- Witness for C5 at concrete inputs: two tag pairs give two filters, and
both a non-empty and an empty id list issue the expected describe call. -/
theorem C5_query_construction_witness :
    buildFilters [("Environment", "development"), ("Schedule", "daily")] =
      [{ Name := "tag:Environment", Values := ["development"] },
       { Name := "tag:Schedule", Values := ["daily"] }] ∧
    (get_target_instances clientAB ["i-1"] [("Environment", "development")]).2 =
      [ProviderCall.describeInstances (some ["i-1"])
        [{ Name := "tag:Environment", Values := ["development"] }]] ∧
    (get_target_instances clientAB [] [("Environment", "development")]).2 =
      [ProviderCall.describeInstances none
        [{ Name := "tag:Environment", Values := ["development"] }]] := by
  refine ⟨by decide, ?_, ?_⟩
  · exact (C5_query_construction clientAB ["i-1"] [("Environment", "development")]).2.1
      (by decide)
  · exact (C5_query_construction clientAB [] [("Environment", "development")]).2.2 rfl

/-- C7: for every describe response, the inventory query returns the flat
concatenation of the instance ids, reservations in order and instances
within each reservation in order, with no deduplication (the result length
is the sum of the per-reservation counts). -/
theorem C7_flatten_order {ρ : Type} (client : EC2Client ρ)
    (ids : List String) (tf : List (String × String)) (resp : DescribeResponse)
    (h : client.describeInstances (if ids = [] then none else some ids)
      (buildFilters tf) = .ok resp) :
    (get_target_instances client ids tf).1 = .ok (extractInstanceIds resp) ∧
    extractInstanceIds resp =
      (resp.Reservations.map (fun r => r.Instances.map (fun i => i.InstanceId))).flatten ∧
    (extractInstanceIds resp).length =
      (resp.Reservations.map (fun r => r.Instances.length)).sum := by
  refine ⟨?_, ?_, extract_length_eq_sum resp.Reservations⟩
  · rw [get_target_instances_fst, h]; rfl
  · simp [extractInstanceIds, List.flatMap_def]

/-- Witness for C7 at a concrete response with two reservations and a
duplicated id: the duplicate is preserved and order is provider order. -/
theorem C7_flatten_order_witness :
    (get_target_instances clientDup [] []).1 = .ok ["i-1", "i-2", "i-1"] ∧
    (extractInstanceIds respDup).length = 3 := by
  have h := C7_flatten_order clientDup [] [] respDup rfl
  exact ⟨h.1, by rw [h.2.2]; rfl⟩

/-- C10: for a non-empty `INSTANCE_IDS` environment string (with the
payload supplying neither field), the fallback id list is exactly the
comma-split segments with surrounding whitespace stripped; the segment
count is the comma count plus one, so empty segments are retained and none
is dropped; and the resulting list, empty strings included, is passed
unvalidated as the `InstanceIds=` argument of the inventory describe
call. -/
theorem C10_env_ids_split (event : Event) (env : Env) (s : String)
    (h1 : event.instance_ids.getD [] = []) (h2 : event.tag_filters.getD [] = [])
    (hs : env.INSTANCE_IDS = some s) (hne : s ≠ "") :
    (resolveTargets event env).1 = (pySplit ',' s).map pyStrip ∧
    (resolveTargets event env).1.length = s.data.count ',' + 1 ∧
    ∀ (ρ : Type) (client : EC2Client ρ),
      (lambda_handler client event env).2.head? =
        some (ProviderCall.describeInstances
          (some ((pySplit ',' s).map pyStrip))
          (buildFilters (resolveTargets event env).2)) := by
  have hres : (resolveTargets event env).1 = (pySplit ',' s).map pyStrip := by
    simp [resolveTargets, h1, h2, hs, hne]
  have hlen : (resolveTargets event env).1.length = s.data.count ',' + 1 := by
    rw [hres]; simp [pySplit, splitOnChar_length]
  refine ⟨hres, hlen, fun ρ client => ?_⟩
  have hnil : (resolveTargets event env).1 ≠ [] := by
    intro hcon; rw [hcon] at hlen; simp at hlen
  rw [lambda_handler_calls_head, if_neg hnil, hres]

/-- Witness for C10 at `INSTANCE_IDS="i-1,, i-2 ,"`: the consecutive and
trailing commas yield retained empty-string identifiers that reach the
describe call. -/
theorem C10_env_ids_split_witness :
    (resolveTargets eventEmpty envIdsAndTag).1.length = 4 ∧
    (lambda_handler clientAB eventEmpty envIdsAndTag).2.head? =
      some (ProviderCall.describeInstances (some ["i-1", "", "i-2", ""])
        (buildFilters (resolveTargets eventEmpty envIdsAndTag).2)) := by
  have h := C10_env_ids_split eventEmpty envIdsAndTag "i-1,, i-2 ," rfl rfl rfl
    (by decide)
  refine ⟨by rw [h.2.1]; rfl, ?_⟩
  rw [h.2.2 Nat clientAB]; decide

/-- C2: when the inventory query returns an empty instance list, the
handler short-circuits with exactly the 200 no-instances envelope and the
trace contains no start/stop call — for every payload, hence regardless of
the requested action, valid or not. -/
theorem C2_empty_short_circuit {ρ : Type} (client : EC2Client ρ)
    (event : Event) (env : Env) (calls : List ProviderCall)
    (hq : get_target_instances client (resolveTargets event env).1
      (resolveTargets event env).2 = (.ok [], calls)) :
    lambda_handler client event env =
      ({ statusCode := 200,
         body := .noInstancesBody "No instances found matching the criteria" [] },
       calls) ∧
    ∀ pc ∈ (lambda_handler client event env).2, isDispatchCall pc = false := by
  have hc := get_target_instances_calls client (resolveTargets event env).1
    (resolveTargets event env).2
  rw [hq] at hc
  simp only at hc
  have hmain : lambda_handler client event env =
      ({ statusCode := 200,
         body := .noInstancesBody "No instances found matching the criteria" [] },
       calls) := by
    unfold lambda_handler lambda_handler_inner
    simp [hq]
  refine ⟨hmain, ?_⟩
  rw [hmain]
  subst hc
  intro pc hpc
  simp at hpc
  simp [hpc, isDispatchCall]

/-- Witness for C2 at concrete inputs: an inventory matching nothing and a
request whose action `"pause"` is not even valid still yield the exact
no-instances 200 envelope with only the describe call in the trace. -/
theorem C2_empty_short_circuit_witness :
    lambda_handler clientEmpty eventPause envNone =
      ({ statusCode := 200,
         body := .noInstancesBody "No instances found matching the criteria" [] },
       [ProviderCall.describeInstances none
         [{ Name := "tag:Environment", Values := ["development"] }]]) ∧
    ∀ pc ∈ (lambda_handler clientEmpty eventPause envNone).2,
      isDispatchCall pc = false :=
  C2_empty_short_circuit clientEmpty eventPause envNone
    [ProviderCall.describeInstances none
      [{ Name := "tag:Environment", Values := ["development"] }]] rfl

/-- C3: with a non-empty target list, an action lowercasing to `"start"`
issues the start call with exactly that list, one lowercasing to `"stop"`
issues the stop call with exactly that list, and any other action value
yields the invalid-action 500 envelope (message built from the raised
`ValueError`) with no start/stop call ever issued. -/
theorem C3_dispatch_validation {ρ : Type} (client : EC2Client ρ)
    (event : Event) (env : Env) (a : String) (l : List String)
    (calls : List ProviderCall)
    (ha : resolveAction event env = some a)
    (hq : get_target_instances client (resolveTargets event env).1
      (resolveTargets event env).2 = (.ok l, calls))
    (hne : l ≠ []) :
    (pyLower a = "start" →
      (lambda_handler client event env).2 = calls ++ [ProviderCall.startInstances l]) ∧
    (pyLower a = "stop" →
      (lambda_handler client event env).2 = calls ++ [ProviderCall.stopInstances l]) ∧
    (pyLower a ≠ "start" → pyLower a ≠ "stop" →
      (lambda_handler client event env).1 =
        { statusCode := 500,
          body := .errorBody ("Lambda execution failed: " ++
            ("Invalid action: " ++ a ++
              ". Must be \x27start\x27 or \x27stop\x27")) } ∧
      ∀ pc ∈ (lambda_handler client event env).2, isDispatchCall pc = false) := by
  have hc := get_target_instances_calls client (resolveTargets event env).1
    (resolveTargets event env).2
  rw [hq] at hc
  simp only at hc
  refine ⟨fun h => ?_, fun h => ?_, fun h1 h2 => ?_⟩
  · unfold lambda_handler lambda_handler_inner
    cases hsi : client.startInstances l <;>
      simp [hq, ha, hne, lowerAction, h, start_instances, hsi]
  · unfold lambda_handler lambda_handler_inner
    cases hsi : client.stopInstances l <;>
      simp [hq, ha, hne, lowerAction, h, stop_instances, hsi]
  · have hmain : lambda_handler client event env =
        ({ statusCode := 500,
           body := .errorBody ("Lambda execution failed: " ++
             ("Invalid action: " ++ a ++
               ". Must be \x27start\x27 or \x27stop\x27")) }, calls) := by
      unfold lambda_handler lambda_handler_inner
      simp [hq, ha, hne, lowerAction, h1, h2, pyStr]
    refine ⟨by rw [hmain], ?_⟩
    rw [hmain]
    subst hc
    intro pc hpc
    simp at hpc
    simp [hpc, isDispatchCall]

/-- Witness for C3 at concrete inputs: the uppercase action `"START"`
dispatches the start call, and `"pause"` yields the invalid-action 500
envelope with no dispatch call. -/
theorem C3_dispatch_validation_witness :
    (lambda_handler clientAB
        ⟨some (some "START"), none, some [("Environment", "development")]⟩
        envNone).2 =
      [ProviderCall.describeInstances none
        [{ Name := "tag:Environment", Values := ["development"] }],
       ProviderCall.startInstances ["i-aaa", "i-bbb"]] ∧
    (lambda_handler clientAB eventPause envNone).1 =
      { statusCode := 500,
        body := .errorBody
          "Lambda execution failed: Invalid action: pause. Must be \x27start\x27 or \x27stop\x27" } := by
  constructor
  · have h := (C3_dispatch_validation clientAB
      ⟨some (some "START"), none, some [("Environment", "development")]⟩
      envNone "START" ["i-aaa", "i-bbb"]
      [ProviderCall.describeInstances none
        [{ Name := "tag:Environment", Values := ["development"] }]]
      rfl rfl (by decide)).1 (by decide)
    rw [h]; rfl
  · have h := ((C3_dispatch_validation clientAB eventPause envNone "pause"
      ["i-aaa", "i-bbb"]
      [ProviderCall.describeInstances none
        [{ Name := "tag:Environment", Values := ["development"] }]]
      rfl rfl (by decide)).2.2 (by decide) (by decide)).1
    rw [h]; rfl

/-- C6: on a successful dispatch (non-empty targets, valid action, provider
call succeeds) the handler returns 200 with the message stating action and
count, the action performed, `affected_instances` equal to the full
resolved target list in order, and the raw dispatch result; the dispatch
call is issued with exactly that list. -/
theorem C6_success_envelope {ρ : Type} (client : EC2Client ρ)
    (event : Event) (env : Env) (a : String) (l : List String)
    (calls : List ProviderCall) (r : ρ)
    (ha : resolveAction event env = some a)
    (hq : get_target_instances client (resolveTargets event env).1
      (resolveTargets event env).2 = (.ok l, calls))
    (hne : l ≠ [])
    (hd : (pyLower a = "start" ∧ client.startInstances l = .ok r) ∨
          (pyLower a = "stop" ∧ client.stopInstances l = .ok r)) :
    (lambda_handler client event env).1 =
      { statusCode := 200,
        body := .successBody
          ("Successfully " ++ a ++ "ed " ++ toString l.length ++ " instances")
          a l r } ∧
    (pyLower a = "start" →
      (lambda_handler client event env).2 = calls ++ [ProviderCall.startInstances l]) ∧
    (pyLower a = "stop" →
      (lambda_handler client event env).2 = calls ++ [ProviderCall.stopInstances l]) := by
  rcases hd with ⟨hlow, hok⟩ | ⟨hlow, hok⟩
  · have hmain : lambda_handler client event env =
        ({ statusCode := 200,
           body := .successBody
             ("Successfully " ++ a ++ "ed " ++ toString l.length ++ " instances")
             a l r }, calls ++ [ProviderCall.startInstances l]) := by
      unfold lambda_handler lambda_handler_inner
      simp [hq, ha, hne, lowerAction, hlow, start_instances, hok, pyStr]
    exact ⟨by rw [hmain], fun _ => by rw [hmain],
      fun hstop => by rw [hlow] at hstop; simp at hstop⟩
  · have hmain : lambda_handler client event env =
        ({ statusCode := 200,
           body := .successBody
             ("Successfully " ++ a ++ "ed " ++ toString l.length ++ " instances")
             a l r }, calls ++ [ProviderCall.stopInstances l]) := by
      unfold lambda_handler lambda_handler_inner
      simp [hq, ha, hne, lowerAction, hlow, stop_instances, hok, pyStr]
    exact ⟨by rw [hmain],
      fun hstart => by rw [hlow] at hstart; simp at hstart,
      fun _ => by rw [hmain]⟩

/-- Witness for C6: the end-to-end scenario of the spec — payload
`{"action": "stop", "tag_filters": {"Environment": "development"}}` against
an inventory whose matches are `i-aaa` then `i-bbb` stops exactly
`["i-aaa", "i-bbb"]` and reports them in provider-returned order. -/
theorem C6_success_envelope_witness :
    (lambda_handler clientAB eventStopDev envNone).1 =
      { statusCode := 200,
        body := .successBody "Successfully stoped 2 instances" "stop"
          ["i-aaa", "i-bbb"] 2 } ∧
    (lambda_handler clientAB eventStopDev envNone).2 =
      [ProviderCall.describeInstances none
        [{ Name := "tag:Environment", Values := ["development"] }],
       ProviderCall.stopInstances ["i-aaa", "i-bbb"]] := by
  have h := C6_success_envelope clientAB eventStopDev envNone "stop"
    ["i-aaa", "i-bbb"]
    [ProviderCall.describeInstances none
      [{ Name := "tag:Environment", Values := ["development"] }]] 2
    rfl rfl (by decide) (Or.inr ⟨by decide, rfl⟩)
  exact ⟨by rw [h.1]; rfl, by rw [h.2.2 (by decide)]; rfl⟩

/-- C9: a payload carrying `"action": null` keeps the null (no fallback to
`DEFAULT_ACTION` or `"stop"`), and whenever the target list is non-empty,
lowercasing the null raises `AttributeError`, so the invocation returns the
500 error envelope instead of performing any action. -/
theorem C9_null_action {ρ : Type} (client : EC2Client ρ)
    (event : Event) (env : Env) (l : List String) (calls : List ProviderCall)
    (ha : event.action = some none)
    (hq : get_target_instances client (resolveTargets event env).1
      (resolveTargets event env).2 = (.ok l, calls))
    (hne : l ≠ []) :
    resolveAction event env = none ∧
    lambda_handler client event env =
      ({ statusCode := 500,
         body := .errorBody ("Lambda execution failed: " ++
           "\x27NoneType\x27 object has no attribute \x27lower\x27") }, calls) := by
  have hact : resolveAction event env = none := by
    unfold resolveAction; rw [ha]
  refine ⟨hact, ?_⟩
  unfold lambda_handler lambda_handler_inner
  simp [hq, hact, hne, lowerAction]

/-- Witness for C9: `{"action": null, "tag_filters": ...}` against an
inventory with two matches returns the `AttributeError` 500 envelope and
issues no start/stop call. -/
theorem C9_null_action_witness :
    resolveAction eventNullAction envNone = none ∧
    lambda_handler clientAB eventNullAction envNone =
      ({ statusCode := 500,
         body := .errorBody
           "Lambda execution failed: \x27NoneType\x27 object has no attribute \x27lower\x27" },
       [ProviderCall.describeInstances none
         [{ Name := "tag:Environment", Values := ["development"] }]]) := by
  have h := C9_null_action clientAB eventNullAction envNone ["i-aaa", "i-bbb"]
    [ProviderCall.describeInstances none
      [{ Name := "tag:Environment", Values := ["development"] }]]
    rfl rfl (by decide)
  exact ⟨h.1, by rw [h.2]; rfl⟩

/-- Every normal (un-raised) exit of the `try` block carries status 200. -/
theorem lambda_handler_inner_ok_status {ρ : Type} (client : EC2Client ρ)
    (event : Event) (env : Env) (r : Response ρ) (calls : List ProviderCall)
    (h : lambda_handler_inner client event env = (.ok r, calls)) :
    r.statusCode = 200 := by
  unfold lambda_handler_inner at h
  cases hg : get_target_instances client (resolveTargets event env).1
      (resolveTargets event env).2 with
  | mk res calls2 =>
    simp only [hg] at h
    cases res with
    | error e => simp at h
    | ok l =>
      by_cases hl : l = []
      · simp [hl] at h
        rw [← h.1]
      · cases hla : lowerAction (resolveAction event env) with
        | error e => simp [hl, hla] at h
        | ok low =>
          by_cases hstart : low = "start"
          · cases hsi : client.startInstances l with
            | error e => simp [hl, hla, hstart, start_instances, hsi] at h
            | ok v =>
              simp [hl, hla, hstart, start_instances, hsi] at h
              rw [← h.1]
          · by_cases hstop : low = "stop"
            · cases hsi : client.stopInstances l with
              | error e =>
                simp [hl, hla, hstart, hstop, stop_instances, hsi] at h
              | ok v =>
                simp [hl, hla, hstart, hstop, stop_instances, hsi] at h
                rw [← h.1]
            · simp [hl, hla, hstart, hstop] at h

/-- C1: every invocation returns a well-formed envelope with statusCode 200
or 500, never re-raising, for every event, environment and provider
behavior; a raised exception with message `e` anywhere in the pipeline is
caught exactly once at the top-level boundary and becomes the 500 envelope
whose error string `"Lambda execution failed: " ++ e` contains the
exception text; and every 500 body is such an envelope. -/
theorem C1_error_boundary {ρ : Type} (client : EC2Client ρ)
    (event : Event) (env : Env) :
    ((lambda_handler client event env).1.statusCode = 200 ∨
      (lambda_handler client event env).1.statusCode = 500) ∧
    (∀ e calls, lambda_handler_inner client event env = (.error e, calls) →
      (lambda_handler client event env).1 =
        { statusCode := 500,
          body := .errorBody ("Lambda execution failed: " ++ e) }) ∧
    ((lambda_handler client event env).1.statusCode = 500 →
      ∃ e, (lambda_handler client event env).1.body =
        .errorBody ("Lambda execution failed: " ++ e)) := by
  refine ⟨?_, fun e calls h => ?_, ?_⟩
  · cases hg : lambda_handler_inner client event env with
    | mk res calls =>
      cases res with
      | error e =>
        right
        unfold lambda_handler
        rw [hg]
      | ok r =>
        left
        have := lambda_handler_inner_ok_status client event env r calls hg
        unfold lambda_handler
        rw [hg]
        exact this
  · unfold lambda_handler
    rw [h]
  · intro h500
    cases hg : lambda_handler_inner client event env with
    | mk res calls =>
      cases res with
      | error e =>
        refine ⟨e, ?_⟩
        unfold lambda_handler
        rw [hg]
      | ok r =>
        have h200 := lambda_handler_inner_ok_status client event env r calls hg
        unfold lambda_handler at h500
        rw [hg] at h500
        simp only at h500
        rw [h200] at h500
        simp at h500

/-- Witness for C1: a provider whose inventory query raises with message
`"query boom"` yields the 500 envelope containing that text. -/
theorem C1_error_boundary_witness :
    ((lambda_handler clientQueryRaises eventStopDev envNone).1.statusCode = 200 ∨
      (lambda_handler clientQueryRaises eventStopDev envNone).1.statusCode = 500) ∧
    (lambda_handler clientQueryRaises eventStopDev envNone).1 =
      { statusCode := 500,
        body := .errorBody "Lambda execution failed: query boom" } := by
  refine ⟨(C1_error_boundary clientQueryRaises eventStopDev envNone).1, ?_⟩
  have h := (C1_error_boundary clientQueryRaises eventStopDev envNone).2.1
    "query boom"
    [ProviderCall.describeInstances none
      [{ Name := "tag:Environment", Values := ["development"] }]]
    rfl
  rw [h]; rfl

end EC2Scheduler
